import Mathlib

/-!
Shallow embedding of the printer connection manager, receipt formatter and
auto-print trigger of the whatsapp-order repository
(src/services/BluetoothPrinterService.ts and the useAutoPrint hook in
src/utils/errorLogger.ts).

The Bluetooth transport (BluetoothManager / BluetoothEscposPrinter) is an
external collaborator; its behaviour for one service call is captured by an
`Env` value: availability flags, the outcome of each adapter query (a value
or a thrown error), and a per-instruction success oracle for print
emissions.  Service methods become pure functions from `Env` and service
state to a result, the updated state and a trace of the transport calls
they actually issued.  JavaScript currency numbers are modelled as integer
cents so that `toFixed(2)` rendering is exact.
-/

namespace WAOrder

/-- Outcome of an asynchronous transport call: a returned value or a thrown
error (the catch blocks of the service absorb the latter). -/
inductive TRes (α : Type) where
  | ok (a : α)
  | thrown
deriving DecidableEq, Repr

/-- PrinterDevice from BluetoothPrinterService.ts: address and name. -/
structure PrinterDevice where
  address : String
  name : String
deriving DecidableEq, Repr

/-- A raw entry of the paired-device list returned by the transport; the
name may be absent (spec section 6: listPaired gives address, name?). -/
structure RawDevice where
  address : String
  name : Option String
deriving DecidableEq, Repr

/-- Order status values of the Order entity. -/
inductive OrderStatus where
  | pending
  | preparing
  | ready
  | delivered
  | cancelled
deriving DecidableEq, Repr

/-- The two locale-rendered views of a JavaScript Date used by printOrder
(toLocaleDateString and toLocaleTimeString with es-ES); the Date object is
external, so it is modelled by the strings those calls produce. -/
structure JSDate where
  localeDateES : String
  localeTimeES : String
deriving DecidableEq, Repr

/-- OrderItem entity; price is in integer cents. -/
structure OrderItem where
  id : String
  name : String
  quantity : Nat
  price : Nat
  notes : Option String
deriving DecidableEq, Repr

/-- Order entity (the fields the printer core reads); totalAmount is in
integer cents. -/
structure Order where
  id : String
  orderNumber : String
  customerName : String
  customerPhone : String
  customerAddress : Option String
  items : List OrderItem
  totalAmount : Nat
  status : OrderStatus
  createdAt : JSDate
  notes : Option String
deriving DecidableEq, Repr

/-- Alignment modes of BluetoothEscposPrinter.ALIGN. -/
inductive Align where
  | left
  | center
  | right
deriving DecidableEq, Repr

/-- Style options passed to printText: either the empty object or the GBK
options record (encoding GBK, codepage 0) with widthtimes, heigthtimes and
fonttype. -/
inductive Opts where
  | plain
  | gbk (widthtimes heigthtimes fonttype : Nat)
deriving DecidableEq, Repr

/-- One print instruction issued through BluetoothEscposPrinter. -/
inductive Instr where
  | align (a : Align)
  | text (s : String) (o : Opts)
  | cut
deriving DecidableEq, Repr

/-- One transport call, as recorded in an operation trace. -/
inductive Call where
  | isEnabledQ
  | enableQ
  | connectQ (address : String)
  | disconnectQ
  | instr (i : Instr)
deriving DecidableEq, Repr

/-- Behaviour of the transport during one service call: module
availability, Platform.OS, the outcome of each adapter query, and a success
oracle for the n-th print instruction emitted by a print operation. -/
structure Env where
  managerAvailable : Bool
  enabledFnExists : Bool
  platformAndroid : Bool
  escposAvailable : Bool
  isEnabledRes : TRes Bool
  enableRes : TRes (List RawDevice)
  connectThrows : Bool
  disconnectThrows : Bool
  instrOk : Nat → Bool
  nowLocaleES : String

/-- Mutable instance state of the BluetoothPrinterService singleton:
connectedDevice (the ConnectionSlot) and the isInitialized flag
(field initDone here, since that identifier is a Lean keyword). -/
structure ServState where
  connectedDevice : Option PrinterDevice
  initDone : Bool
deriving DecidableEq, Repr

/-- Embeds BluetoothPrinterService.initialize: checks the manager and its
isBluetoothEnabled function, queries enabled state (a throw is caught and
resets the initialized flag), and on a disabled adapter attempts
enableBluetooth on Android only (its throw is caught, returning false
without touching the flag). -/
def init (env : Env) (st : ServState) : Bool × ServState × List Call :=
  if !env.managerAvailable then (false, st, [])
  else if !env.enabledFnExists then (false, st, [])
  else
    match env.isEnabledRes with
    | .thrown => (false, { st with initDone := false }, [Call.isEnabledQ])
    | .ok true => (true, { st with initDone := true }, [Call.isEnabledQ])
    | .ok false =>
      if env.platformAndroid then
        match env.enableRes with
        | .thrown => (false, st, [Call.isEnabledQ, Call.enableQ])
        | .ok _ => (true, { st with initDone := true }, [Call.isEnabledQ, Call.enableQ])
      else (false, st, [Call.isEnabledQ])

/-- JavaScript `device.name || defaultName`: undefined, null and the empty
string are falsy, so any of them selects the default. -/
def jsNameOr (n : Option String) (dflt : String) : String :=
  match n with
  | none => dflt
  | some s => if s = "" then dflt else s

/-- Mapping of one raw paired device into a PrinterDevice, as done in
scanForPrinters. -/
def toPrinterDevice (d : RawDevice) : PrinterDevice :=
  { address := d.address, name := jsNameOr d.name "Unknown Device" }

/-- Embeds BluetoothPrinterService.scanForPrinters: auto-initializes when
needed, then obtains the paired-device list (via enableBluetooth) and maps
it; every failure path yields the empty list. -/
def scanForPrinters (env : Env) (st : ServState) :
    List PrinterDevice × ServState × List Call :=
  let pre := if st.initDone then (true, st, ([] : List Call)) else init env st
  if !pre.1 then ([], pre.2.1, pre.2.2)
  else if !env.managerAvailable then ([], pre.2.1, pre.2.2)
  else
    match env.enableRes with
    | .thrown => ([], pre.2.1, pre.2.2 ++ [Call.enableQ])
    | .ok devs => (devs.map toPrinterDevice, pre.2.1, pre.2.2 ++ [Call.enableQ])

/-- Embeds BluetoothPrinterService.connectToPrinter: auto-initializes when
needed (an initialization failure returns false leaving the slot as it
was), checks the manager, then attempts the transport connect; a throw is
caught, clearing the slot; success stores the device in the slot. -/
def connectToPrinter (env : Env) (st : ServState) (device : PrinterDevice) :
    Bool × ServState × List Call :=
  let pre := if st.initDone then (true, st, ([] : List Call)) else init env st
  if !pre.1 then (false, pre.2.1, pre.2.2)
  else if !env.managerAvailable then (false, pre.2.1, pre.2.2)
  else if env.connectThrows then
    (false, { pre.2.1 with connectedDevice := none }, pre.2.2 ++ [Call.connectQ device.address])
  else
    (true, { pre.2.1 with connectedDevice := some device }, pre.2.2 ++ [Call.connectQ device.address])

/-- Embeds BluetoothPrinterService.disconnect: a no-op on an empty slot;
otherwise the transport disconnect is attempted and the slot is cleared on
every path (manager missing, throw caught, or success). -/
def disconnect (env : Env) (st : ServState) : ServState × List Call :=
  match st.connectedDevice with
  | none => (st, [])
  | some _ =>
    if !env.managerAvailable then ({ st with connectedDevice := none }, [])
    else if env.disconnectThrows then ({ st with connectedDevice := none }, [Call.disconnectQ])
    else ({ st with connectedDevice := none }, [Call.disconnectQ])

/-- Embeds BluetoothPrinterService.isConnected: a pure read of the slot. -/
def isConnected (st : ServState) : Bool :=
  st.connectedDevice.isSome

/-- Embeds BluetoothPrinterService.getConnectedDevice. -/
def getConnectedDevice (st : ServState) : Option PrinterDevice :=
  st.connectedDevice

/-- Embeds BluetoothPrinterService.verifyConnection: false on an empty
slot with no transport call; otherwise the adapter-enabled query is made,
and a disabled answer or a throw clears the slot and yields false. -/
def verifyConnection (env : Env) (st : ServState) : Bool × ServState × List Call :=
  match st.connectedDevice with
  | none => (false, st, [])
  | some _ =>
    if !env.managerAvailable then (false, { st with connectedDevice := none }, [])
    else
      match env.isEnabledRes with
      | .thrown => (false, { st with connectedDevice := none }, [Call.isEnabledQ])
      | .ok false => (false, { st with connectedDevice := none }, [Call.isEnabledQ])
      | .ok true => (true, st, [Call.isEnabledQ])

/-- Decimal digit character of d modulo 10. -/
def digitChar (d : Nat) : Char :=
  Char.ofNat (48 + d % 10)

/-- The last two decimal digits of k, zero padded. -/
def twoDigits (k : Nat) : String :=
  String.mk [digitChar (k / 10), digitChar k]

/-- Rendering of an integer-cent amount the way JavaScript toFixed(2)
renders the corresponding euro number: whole euros, a dot, exactly two
cent digits. -/
def toFixed2 (cents : Nat) : String :=
  toString (cents / 100) ++ "." ++ twoDigits (cents % 100)

/-- JavaScript truthiness guard over an optional string field, as in
`if (order.customerAddress) ...`: the guarded instructions are emitted
only when the field is present and non-empty, since undefined, null and
the empty string are all falsy. -/
def jsWhenPresent (n : Option String) (mk : String → List Instr) : List Instr :=
  match n with
  | none => []
  | some s => if s = "" then [] else mk s

/-- The GBK style with normal size, fonttype 1 (the common option record
of BluetoothPrinterService). -/
def styleStd : Opts := Opts.gbk 0 0 1

/-- The GBK style with doubled width and height, fonttype 1. -/
def styleBig : Opts := Opts.gbk 1 1 1

/-- Print instructions emitted for one order item inside printOrder:
quantity and name line, the price line (quantity times unit price, two
decimals, EUR), the note line guarded by the JS truthiness of item.notes,
and a blank line. -/
def itemInstrs (it : OrderItem) : List Instr :=
  [Instr.text (toString it.quantity ++ "x " ++ it.name ++ "\n") styleStd,
   Instr.text ("   " ++ toFixed2 (it.price * it.quantity) ++ " EUR\n") styleStd]
  ++ jsWhenPresent it.notes (fun n => [Instr.text ("   Nota: " ++ n ++ "\n") styleStd])
  ++ [Instr.text "\n" Opts.plain]

/-- The full printOrder instruction sequence before the cut attempt,
transcribed from BluetoothPrinterService.printOrder lines 244 to 422. -/
def orderInstrs (o : Order) : List Instr :=
  [Instr.align Align.center,
   Instr.text "================================\n" styleStd,
   Instr.text "NUEVO PEDIDO\n" styleBig,
   Instr.text "================================\n" styleStd,
   Instr.text "\n" Opts.plain,
   Instr.align Align.left,
   Instr.text ("Pedido: " ++ o.orderNumber ++ "\n") styleStd,
   Instr.text ("Fecha: " ++ o.createdAt.localeDateES ++ " " ++ o.createdAt.localeTimeES ++ "\n") styleStd,
   Instr.text "--------------------------------\n" Opts.plain,
   Instr.text "\nCLIENTE:\n" styleStd,
   Instr.text (o.customerName ++ "\n") styleStd,
   Instr.text ("Tel: " ++ o.customerPhone ++ "\n") styleStd]
  ++ jsWhenPresent o.customerAddress (fun a => [Instr.text ("Dir: " ++ a ++ "\n") styleStd])
  ++ [Instr.text "--------------------------------\n" Opts.plain,
      Instr.text "\nARTICULOS:\n" styleStd]
  ++ (o.items.map itemInstrs).flatten
  ++ [Instr.text "--------------------------------\n" Opts.plain,
      Instr.align Align.right,
      Instr.text ("TOTAL: " ++ toFixed2 o.totalAmount ++ " EUR\n") styleBig]
  ++ jsWhenPresent o.notes (fun n =>
      [Instr.align Align.left,
       Instr.text "\n--------------------------------\n" Opts.plain,
       Instr.text "NOTAS:\n" styleStd,
       Instr.text (n ++ "\n") styleStd])
  ++ [Instr.align Align.center,
      Instr.text "\n================================\n" Opts.plain,
      Instr.text "Gracias por su pedido!\n" styleStd,
      Instr.text "================================\n\n\n" Opts.plain]

/-- The printTest instruction sequence before the cut attempt, transcribed
from BluetoothPrinterService.printTest lines 470 to 487. -/
def testInstrs (env : Env) : List Instr :=
  [Instr.align Align.center,
   Instr.text "================================\n" Opts.plain,
   Instr.text "PRUEBA DE IMPRESION\n" styleBig,
   Instr.text "================================\n" Opts.plain,
   Instr.text "\nImpresora conectada correctamente\n" Opts.plain,
   Instr.text (env.nowLocaleES ++ "\n") Opts.plain,
   Instr.text "\n================================\n\n\n" Opts.plain]

/-- Emits a list of instructions in order, consulting the success oracle
at each position starting from n; stops at the first throwing emission.
Returns whether all emissions succeeded and the attempted instructions. -/
def runInstrs (ok : Nat → Bool) : List Instr → Nat → Bool × List Instr
  | [], _ => (true, [])
  | i :: rest, n =>
    if ok n then
      ((runInstrs ok rest (n + 1)).1, i :: (runInstrs ok rest (n + 1)).2)
    else (false, [i])

/-- Embeds BluetoothPrinterService.printOrder: empty-slot check, then
verifyConnection, then the printer-module check, then the instruction
sequence; any body instruction throw is caught by the outer catch, which
clears the slot and returns false; after a fully successful body the cut
is attempted inside its own try-catch and its outcome is ignored. -/
def printOrder (env : Env) (st : ServState) (o : Order) : Bool × ServState × List Call :=
  match st.connectedDevice with
  | none => (false, st, [])
  | some _ =>
    let v := verifyConnection env st
    if !v.1 then (false, v.2.1, v.2.2)
    else if !env.escposAvailable then (false, v.2.1, v.2.2)
    else
      let r := runInstrs env.instrOk (orderInstrs o) 0
      if r.1 then (true, v.2.1, v.2.2 ++ r.2.map Call.instr ++ [Call.instr Instr.cut])
      else (false, { v.2.1 with connectedDevice := none }, v.2.2 ++ r.2.map Call.instr)

/-- Embeds BluetoothPrinterService.printTest, with the same shape as
printOrder over the fixed test sequence. -/
def printTest (env : Env) (st : ServState) : Bool × ServState × List Call :=
  match st.connectedDevice with
  | none => (false, st, [])
  | some _ =>
    let v := verifyConnection env st
    if !v.1 then (false, v.2.1, v.2.2)
    else if !env.escposAvailable then (false, v.2.1, v.2.2)
    else
      let r := runInstrs env.instrOk (testInstrs env) 0
      if r.1 then (true, v.2.1, v.2.2 ++ r.2.map Call.instr ++ [Call.instr Instr.cut])
      else (false, { v.2.1 with connectedDevice := none }, v.2.2 ++ r.2.map Call.instr)

/-- True when a trace contains no print instruction emission. -/
def noPrintCalls (tr : List Call) : Bool :=
  tr.all fun c =>
    match c with
    | Call.instr _ => false
    | _ => true

/-- The new-and-pending filter of the useAutoPrint effect: the order id is
absent from the previous snapshot and the status is pending. -/
def isNewPending (prev : List String) (o : Order) : Bool :=
  !(prev.contains o.id) && (o.status == OrderStatus.pending)

/-- One evaluation of the useAutoPrint effect: when the connected flag or
the auto-print toggle is off it returns early, printing nothing and
leaving the previous-ids snapshot untouched; otherwise it prints each
new pending order once (in list order) and replaces the snapshot by the
full current id set, regardless of any print outcome. Returns the list of
orders passed to the print path and the new snapshot. -/
def autoPrintStep (connected enabled : Bool) (prev : List String) (orders : List Order) :
    List Order × List String :=
  if !connected || !enabled then ([], prev)
  else (orders.filter (isNewPending prev), orders.map fun o => o.id)

/-- Spec-side description, per-item block: a quantity-x-name line, a price
line (quantity times unit price with two decimals and the EUR marker), a
note line only when the note is present and non-empty (JS truthiness),
then a blank line. -/
def specItemBlock (it : OrderItem) : List Instr :=
  Instr.text (toString it.quantity ++ "x " ++ it.name ++ "\n") styleStd
  :: Instr.text ("   " ++ toFixed2 (it.quantity * it.price) ++ " EUR\n") styleStd
  :: (jsWhenPresent it.notes (fun n => [Instr.text ("   Nota: " ++ n ++ "\n") styleStd])
      ++ [Instr.text "\n" Opts.plain])

/-- Spec-side description, center-aligned header banner. -/
def specHeader : List Instr :=
  [Instr.align Align.center,
   Instr.text "================================\n" styleStd,
   Instr.text "NUEVO PEDIDO\n" styleBig,
   Instr.text "================================\n" styleStd,
   Instr.text "\n" Opts.plain]

/-- Spec-side description, order number and timestamp then a separator. -/
def specMeta (o : Order) : List Instr :=
  [Instr.align Align.left,
   Instr.text ("Pedido: " ++ o.orderNumber ++ "\n") styleStd,
   Instr.text ("Fecha: " ++ o.createdAt.localeDateES ++ " " ++ o.createdAt.localeTimeES ++ "\n") styleStd,
   Instr.text "--------------------------------\n" Opts.plain]

/-- Spec-side description, customer block (name, phone, and the address
line only when the address is present and non-empty) then a separator. -/
def specCustomer (o : Order) : List Instr :=
  [Instr.text "\nCLIENTE:\n" styleStd,
   Instr.text (o.customerName ++ "\n") styleStd,
   Instr.text ("Tel: " ++ o.customerPhone ++ "\n") styleStd]
  ++ jsWhenPresent o.customerAddress (fun a => [Instr.text ("Dir: " ++ a ++ "\n") styleStd])
  ++ [Instr.text "--------------------------------\n" Opts.plain]

/-- Spec-side description, itemized list then a separator. -/
def specItems (o : Order) : List Instr :=
  Instr.text "\nARTICULOS:\n" styleStd
  :: (o.items.map specItemBlock).flatten
  ++ [Instr.text "--------------------------------\n" Opts.plain]

/-- Spec-side description, right-aligned total line with two decimals and
the EUR marker. -/
def specTotal (o : Order) : List Instr :=
  [Instr.align Align.right,
   Instr.text ("TOTAL: " ++ toFixed2 o.totalAmount ++ " EUR\n") styleBig]

/-- Spec-side description, notes block, emitted only when the notes field
is present and non-empty (JS truthiness). -/
def specNotes (o : Order) : List Instr :=
  jsWhenPresent o.notes (fun n =>
    [Instr.align Align.left,
     Instr.text "\n--------------------------------\n" Opts.plain,
     Instr.text "NOTAS:\n" styleStd,
     Instr.text (n ++ "\n") styleStd])

/-- Spec-side description, center-aligned footer banner. -/
def specFooter : List Instr :=
  [Instr.align Align.center,
   Instr.text "\n================================\n" Opts.plain,
   Instr.text "Gracias por su pedido!\n" styleStd,
   Instr.text "================================\n\n\n" Opts.plain]

/-- The claim C8 receipt sequence assembled from the spec wording: header
banner, order number and timestamp, separator, customer block, separator,
itemized list, separator, total line, optional notes, footer banner. The
final cut attempt is appended by the print path itself. -/
def specOrderInstrs (o : Order) : List Instr :=
  specHeader ++ specMeta o ++ specCustomer o ++ specItems o
  ++ specTotal o ++ specNotes o ++ specFooter

/-- A sample connected printer device. -/
def dev1 : PrinterDevice := { address := "AA:BB", name := "Epson" }

/-- A second sample device for reconnection scenarios. -/
def dev2 : PrinterDevice := { address := "CC:DD", name := "Star" }

/-- A sample order item with a note: 2 x Pizza at 12.50 EUR. -/
def item1 : OrderItem :=
  { id := "i1", name := "Pizza", quantity := 2, price := 1250, notes := some "extra queso" }

/-- A sample pending order with one item. -/
def order1 : Order :=
  { id := "o1", orderNumber := "001", customerName := "Ana", customerPhone := "600111222",
    customerAddress := some "Calle Mayor 1", items := [item1], totalAmount := 2500,
    status := OrderStatus.pending, createdAt := { localeDateES := "1/1/2025", localeTimeES := "10:00" },
    notes := some "llamar al llegar" }

/-- A sample order in preparing status. -/
def order2 : Order :=
  { id := "o2", orderNumber := "002", customerName := "Luis", customerPhone := "600333444",
    customerAddress := none, items := [], totalAmount := 0,
    status := OrderStatus.preparing, createdAt := { localeDateES := "1/1/2025", localeTimeES := "11:00" },
    notes := none }

/-- A transport environment in which every call succeeds. -/
def envOK : Env :=
  { managerAvailable := true, enabledFnExists := true, platformAndroid := true,
    escposAvailable := true, isEnabledRes := TRes.ok true,
    enableRes := TRes.ok [], connectThrows := false, disconnectThrows := false,
    instrOk := fun _ => true, nowLocaleES := "1/1/2025 12:00" }

/-- A service state with dev1 in the ConnectionSlot, initialized. -/
def stConn : ServState := { connectedDevice := some dev1, initDone := true }

/-- A service state with an empty ConnectionSlot, initialized. -/
def stEmpty : ServState := { connectedDevice := none, initDone := true }

/-- A transport environment whose adapter-enabled query throws. -/
def envInitFail : Env := { envOK with isEnabledRes := TRes.thrown }

/-- A service state holding dev1 while the initialized flag is off (as
after a later initialization attempt threw). -/
def stStale : ServState := { connectedDevice := some dev1, initDone := false }

/-- A raw paired device whose name is the empty string. -/
def rawEmptyName : RawDevice := { address := "AA", name := some "" }

/-- A transport environment whose paired-device list holds rawEmptyName. -/
def envScanEmptyName : Env := { envOK with enableRes := TRes.ok [rawEmptyName] }

/-- A transport environment in which every print instruction emission
throws. -/
def envPrintFail : Env := { envOK with instrOk := fun _ => false }

/-- A two-entry paired-device list, the second name missing. -/
def rawPair : List RawDevice :=
  [{ address := "AA:BB", name := some "Epson" }, { address := "CC:DD", name := none }]

/-- A transport environment whose paired-device list is rawPair. -/
def envScanPair : Env := { envOK with enableRes := TRes.ok rawPair }

/-- order1 with an empty-string customer address: the field is present,
but JavaScript truthiness treats it as falsy. -/
def orderEmptyAddr : Order := { order1 with customerAddress := some "" }

/-- A transport environment in which only the cut instruction (the
emission right after the receipt body of order1) throws. -/
def envCutFail : Env :=
  { envOK with instrOk := fun i => !(i == (orderInstrs order1).length) }

/-- Initialization never touches the ConnectionSlot. -/
theorem init_slot (env : Env) (st : ServState) :
    ((init env st).2.1).connectedDevice = st.connectedDevice := by
  unfold init
  (repeat' split) <;> rfl

/-- When the oracle accepts every position of the list, runInstrs succeeds
and attempts exactly the whole list. -/
theorem runInstrs_all (ok : Nat → Bool) (l : List Instr) (n : Nat)
    (h : ∀ i, i < l.length → ok (n + i) = true) :
    runInstrs ok l n = (true, l) := by
  induction l generalizing n with
  | nil => rfl
  | cons a rest ih =>
    have h0 : ok n = true := by simpa using h 0 (by simp)
    have hrec : runInstrs ok rest (n + 1) = (true, rest) := by
      refine ih (n + 1) fun i hi => ?_
      have e : n + 1 + i = n + (i + 1) := by omega
      rw [e]
      exact h (i + 1) (by simp only [List.length_cons]; omega)
    simp [runInstrs, h0, hrec]

/-- When the oracle rejects some position of the list, runInstrs reports
failure. -/
theorem runInstrs_fail (ok : Nat → Bool) (l : List Instr) (n : Nat)
    (h : ∃ i, i < l.length ∧ ok (n + i) = false) :
    (runInstrs ok l n).1 = false := by
  induction l generalizing n with
  | nil =>
    obtain ⟨i, hi, _⟩ := h
    simp at hi
  | cons a rest ih =>
    by_cases h0 : ok n = true
    · obtain ⟨i, hi, hf⟩ := h
      cases i with
      | zero =>
        rw [Nat.add_zero] at hf
        rw [hf] at h0
        cases h0
      | succ j =>
        have hrec : (runInstrs ok rest (n + 1)).1 = false := by
          refine ih (n + 1) ⟨j, ?_, ?_⟩
          · simp only [List.length_cons] at hi
            omega
          · have e : n + 1 + j = n + (j + 1) := by omega
            rw [e]
            exact hf
        simp [runInstrs, h0, hrec]
    · have h0f : ok n = false := by
        cases hv : ok n
        · rfl
        · exact absurd hv h0
      simp [runInstrs, h0f]

/-- A true verifyConnection result forces a non-empty slot. -/
theorem verify_true_slot (env : Env) (st : ServState)
    (h : (verifyConnection env st).1 = true) :
    ∃ d, st.connectedDevice = some d := by
  cases hs : st.connectedDevice with
  | none =>
    rw [verifyConnection, hs] at h
    cases h
  | some d => exact ⟨d, rfl⟩

/-- A true verifyConnection result determines the whole outcome: the state
is unchanged and the only transport call is the adapter-enabled query. -/
theorem verify_true_elim (env : Env) (st : ServState)
    (h : (verifyConnection env st).1 = true) :
    verifyConnection env st = (true, st, [Call.isEnabledQ]) := by
  obtain ⟨d, hd⟩ := verify_true_slot env st h
  unfold verifyConnection at h ⊢
  rw [hd] at h ⊢
  by_cases hm : env.managerAvailable = true
  · simp only [hm] at h ⊢
    cases he : env.isEnabledRes with
    | thrown => simp [he] at h
    | ok b =>
      cases b with
      | false => simp [he] at h
      | true => simp [he]
  · rw [Bool.not_eq_true] at hm
    simp [hm] at h

/-- C3: after any disconnect call the ConnectionSlot is null, whatever the
transport did (the embedding is a total function, so no exception reaches
the caller); and on an empty slot disconnect is a no-op that issues no
transport call. -/
theorem disconnect_clears_slot (env : Env) (st : ServState) :
    ((disconnect env st).1).connectedDevice = none ∧
    (st.connectedDevice = none → disconnect env st = (st, [])) := by
  constructor
  · cases hs : st.connectedDevice with
    | none =>
      simp [disconnect, hs]
    | some d =>
      unfold disconnect
      rw [hs]
      (repeat' split) <;> simp_all
  · intro h
    simp [disconnect, h]

/-- C3 witness: disconnect on the connected state clears the slot even
when the transport close throws, and disconnect on the empty state is a
transport-free no-op. -/
theorem disconnect_clears_slot_witness :
    (((disconnect { envOK with disconnectThrows := true } stConn).1).connectedDevice = none) ∧
    disconnect envOK stEmpty = (stEmpty, []) :=
  ⟨(disconnect_clears_slot { envOK with disconnectThrows := true } stConn).1,
   (disconnect_clears_slot envOK stEmpty).2 rfl⟩

/-- C4: verifyConnection returns false on an empty slot with no transport
call; with a non-empty slot and a reachable manager, a thrown or disabled
adapter-enabled query clears the slot and yields false (no exception
escapes, the embedding being total), while an enabled answer yields true
with the state unchanged. -/
theorem verifyConnection_contract (env : Env) (st : ServState) :
    (st.connectedDevice = none → verifyConnection env st = (false, st, [])) ∧
    (∀ d, st.connectedDevice = some d → env.managerAvailable = true →
      (env.isEnabledRes = TRes.thrown →
        verifyConnection env st = (false, { st with connectedDevice := none }, [Call.isEnabledQ])) ∧
      (env.isEnabledRes = TRes.ok false →
        verifyConnection env st = (false, { st with connectedDevice := none }, [Call.isEnabledQ])) ∧
      (env.isEnabledRes = TRes.ok true →
        verifyConnection env st = (true, st, [Call.isEnabledQ]))) := by
  constructor
  · intro h
    simp [verifyConnection, h]
  · intro d hd hm
    refine ⟨fun he => ?_, fun he => ?_, fun he => ?_⟩ <;>
      simp [verifyConnection, hd, hm, he]

/-- C4 witness: with dev1 connected, a throwing adapter query clears the
slot and returns false, and an enabled adapter leaves the state alone and
returns true. -/
theorem verifyConnection_contract_witness :
    verifyConnection envInitFail stConn
      = (false, { stConn with connectedDevice := none }, [Call.isEnabledQ]) ∧
    verifyConnection envOK stConn = (true, stConn, [Call.isEnabledQ]) :=
  ⟨((verifyConnection_contract envInitFail stConn).2 dev1 rfl rfl).1 rfl,
   ((verifyConnection_contract envOK stConn).2 dev1 rfl rfl).2.2 rfl⟩

/-- C1: with an empty slot, printOrder and printTest return false with no
transport call at all; with a slot that passes verification and an
available printer module, a failing body instruction (any instruction
other than the cut) makes the operation return false with the slot
cleared, and with every emission succeeding the operation returns true. -/
theorem print_failure_contract (env : Env) (st : ServState) (o : Order) :
    (st.connectedDevice = none →
      printOrder env st o = (false, st, []) ∧ printTest env st = (false, st, [])) ∧
    ((verifyConnection env st).1 = true → env.escposAvailable = true →
      ((∃ i, i < (orderInstrs o).length ∧ env.instrOk i = false) →
        (printOrder env st o).1 = false ∧
        ((printOrder env st o).2.1).connectedDevice = none) ∧
      ((∀ i, env.instrOk i = true) → (printOrder env st o).1 = true) ∧
      ((∃ i, i < (testInstrs env).length ∧ env.instrOk i = false) →
        (printTest env st).1 = false ∧
        ((printTest env st).2.1).connectedDevice = none) ∧
      ((∀ i, env.instrOk i = true) → (printTest env st).1 = true)) := by
  constructor
  · intro h
    exact ⟨by simp [printOrder, h], by simp [printTest, h]⟩
  · intro hv hesc
    obtain ⟨d, hd⟩ := verify_true_slot env st hv
    have hveq := verify_true_elim env st hv
    refine ⟨fun hex => ?_, fun hall => ?_, fun hex => ?_, fun hall => ?_⟩
    · have hr : (runInstrs env.instrOk (orderInstrs o) 0).1 = false := by
        obtain ⟨i, hi, hf⟩ := hex
        exact runInstrs_fail env.instrOk (orderInstrs o) 0 ⟨i, hi, by simpa using hf⟩
      simp [printOrder, hd, hveq, hesc, hr]
    · have hr : runInstrs env.instrOk (orderInstrs o) 0 = (true, orderInstrs o) :=
        runInstrs_all env.instrOk (orderInstrs o) 0 fun i _ => hall (0 + i)
      simp [printOrder, hd, hveq, hesc, hr]
    · have hr : (runInstrs env.instrOk (testInstrs env) 0).1 = false := by
        obtain ⟨i, hi, hf⟩ := hex
        exact runInstrs_fail env.instrOk (testInstrs env) 0 ⟨i, hi, by simpa using hf⟩
      simp [printTest, hd, hveq, hesc, hr]
    · have hr : runInstrs env.instrOk (testInstrs env) 0 = (true, testInstrs env) :=
        runInstrs_all env.instrOk (testInstrs env) 0 fun i _ => hall (0 + i)
      simp [printTest, hd, hveq, hesc, hr]

/-- C1 witness: on the empty state printOrder is transport-free false; on
the connected state, with every emission throwing printOrder returns false
and clears the slot, and with every emission succeeding it returns true. -/
theorem print_failure_contract_witness :
    printOrder envOK stEmpty order1 = (false, stEmpty, []) ∧
    ((printOrder envPrintFail stConn order1).1 = false ∧
      ((printOrder envPrintFail stConn order1).2.1).connectedDevice = none) ∧
    (printOrder envOK stConn order1).1 = true :=
  ⟨((print_failure_contract envOK stEmpty order1).1 rfl).1,
   ((print_failure_contract envPrintFail stConn order1).2 (by decide) rfl).1
     ⟨0, by decide, rfl⟩,
   ((print_failure_contract envOK stConn order1).2 (by decide) rfl).2.1 fun i => rfl⟩

/-- C5: when every body instruction of the receipt succeeds, a throwing
cut instruction is swallowed by its own try-catch, so printOrder and
printTest still return true and the ConnectionSlot is not cleared. -/
theorem cut_failure_nonfatal (env : Env) (st : ServState) (o : Order)
    (hv : (verifyConnection env st).1 = true)
    (hesc : env.escposAvailable = true) :
    ((∀ i, i < (orderInstrs o).length → env.instrOk i = true) →
      env.instrOk (orderInstrs o).length = false →
      (printOrder env st o).1 = true ∧ (printOrder env st o).2.1 = st) ∧
    ((∀ i, i < (testInstrs env).length → env.instrOk i = true) →
      env.instrOk (testInstrs env).length = false →
      (printTest env st).1 = true ∧ (printTest env st).2.1 = st) := by
  obtain ⟨d, hd⟩ := verify_true_slot env st hv
  have hveq := verify_true_elim env st hv
  constructor
  · intro hbody _hcut
    have hr : runInstrs env.instrOk (orderInstrs o) 0 = (true, orderInstrs o) :=
      runInstrs_all env.instrOk (orderInstrs o) 0 fun i hi => by
        simpa using hbody i hi
    simp [printOrder, hd, hveq, hesc, hr]
  · intro hbody _hcut
    have hr : runInstrs env.instrOk (testInstrs env) 0 = (true, testInstrs env) :=
      runInstrs_all env.instrOk (testInstrs env) 0 fun i hi => by
        simpa using hbody i hi
    simp [printTest, hd, hveq, hesc, hr]

/-- C5 witness: with an oracle that throws exactly at the cut position of
the order1 receipt, printOrder still returns true and keeps the slot. -/
theorem cut_failure_nonfatal_witness :
    (printOrder envCutFail stConn order1).1 = true ∧
    (printOrder envCutFail stConn order1).2.1 = stConn :=
  (cut_failure_nonfatal envCutFail stConn order1 (by decide) rfl).1
    (fun i hi => by
      simp only [envCutFail]
      simp only [Bool.not_eq_true']
      exact beq_eq_false_iff_ne.mpr (Nat.ne_of_lt hi))
    (by simp [envCutFail])

/-- C10: with a verified connection but a missing printer instruction
module, printOrder and printTest return false while emitting no print
instruction and leaving the ConnectionSlot alone, so isConnected still
reports true afterwards. -/
theorem escpos_unavailable_frame (env : Env) (st : ServState) (o : Order)
    (hv : (verifyConnection env st).1 = true)
    (hesc : env.escposAvailable = false) :
    printOrder env st o = (false, st, [Call.isEnabledQ]) ∧
    printTest env st = (false, st, [Call.isEnabledQ]) ∧
    noPrintCalls [Call.isEnabledQ] = true ∧
    isConnected ((printOrder env st o).2.1) = true := by
  obtain ⟨d, hd⟩ := verify_true_slot env st hv
  have hveq := verify_true_elim env st hv
  have h1 : printOrder env st o = (false, st, [Call.isEnabledQ]) := by
    simp [printOrder, hd, hveq, hesc]
  have h2 : printTest env st = (false, st, [Call.isEnabledQ]) := by
    simp [printTest, hd, hveq, hesc]
  refine ⟨h1, h2, rfl, ?_⟩
  rw [h1]
  simp [isConnected, hd]

/-- C10 witness: with dev1 connected and the printer module missing, the
print paths return false, emit nothing, and the slot stays occupied. -/
theorem escpos_unavailable_frame_witness :
    printOrder { envOK with escposAvailable := false } stConn order1
      = (false, stConn, [Call.isEnabledQ]) ∧
    isConnected ((printOrder { envOK with escposAvailable := false } stConn order1).2.1) = true :=
  ⟨(escpos_unavailable_frame { envOK with escposAvailable := false } stConn order1
      (by decide) rfl).1,
   (escpos_unavailable_frame { envOK with escposAvailable := false } stConn order1
      (by decide) rfl).2.2.2⟩

/-- The per-item instruction block of the source equals the spec-side
description (the source writes price times quantity, the spec quantity
times unit price). -/
theorem itemInstrs_eq_specItemBlock : itemInstrs = specItemBlock := by
  funext it
  simp [itemInstrs, specItemBlock, Nat.mul_comm]

/-- The source receipt sequence of printOrder equals the spec-side
sequence assembled block by block. -/
theorem orderInstrs_eq_spec (o : Order) : orderInstrs o = specOrderInstrs o := by
  simp [orderInstrs, specOrderInstrs, specHeader, specMeta, specCustomer, specItems,
        specTotal, specNotes, specFooter, itemInstrs_eq_specItemBlock]

/-- toFixed2 always renders a dot followed by exactly two digits. -/
theorem toFixed2_two_decimals (cents : Nat) :
    ∃ pre post : String, toFixed2 cents = pre ++ "." ++ post ∧ post.length = 2 :=
  ⟨toString (cents / 100), twoDigits (cents % 100), rfl, rfl⟩

/-- C8 counterexample: at an order whose customer address is present but
the empty string, a fully successful printOrder emits no Dir: line at all
(the JS truthiness guard skips it), although the run does reach and print
the rest of the customer block — so the sequence of the original claim,
whose address line is governed by presence alone, is not the one
emitted. -/
theorem printOrder_sequence_claim_false :
    orderEmptyAddr.customerAddress = some "" ∧
    (printOrder envOK stConn orderEmptyAddr).1 = true ∧
    Call.instr (Instr.text "Dir: \n" styleStd)
      ∉ (printOrder envOK stConn orderEmptyAddr).2.2 ∧
    Call.instr (Instr.text ("Tel: " ++ orderEmptyAddr.customerPhone ++ "\n") styleStd)
      ∈ (printOrder envOK stConn orderEmptyAddr).2.2 := by
  refine ⟨rfl, rfl, ?_, ?_⟩ <;> decide

/-- C8 amended: a fully successful printOrder returns true and emits,
after the verification query, exactly the spec-described receipt: header
banner, order number and timestamp, separator, customer block, separator,
the itemized list, separator, right-aligned total, notes block, footer
banner, then the cut attempt — where the address line, each item note
line and the notes block appear only when the corresponding field is
present and non-empty (JS truthiness) and are skipped when missing or
empty; every currency amount is rendered by toFixed2 with a dot and
exactly two digits, next to the 3-letter EUR marker. -/
theorem printOrder_success_sequence (env : Env) (st : ServState) (o : Order)
    (hv : (verifyConnection env st).1 = true)
    (hesc : env.escposAvailable = true)
    (hall : ∀ i, env.instrOk i = true) :
    printOrder env st o =
      (true, st,
        Call.isEnabledQ :: ((specOrderInstrs o).map Call.instr ++ [Call.instr Instr.cut])) ∧
    (∀ it : OrderItem, it ∈ o.items →
      Instr.text ("   " ++ toFixed2 (it.quantity * it.price) ++ " EUR\n") styleStd
        ∈ specOrderInstrs o) ∧
    (∀ cents : Nat, ∃ pre post : String,
      toFixed2 cents = pre ++ "." ++ post ∧ post.length = 2) ∧
    String.length "EUR" = 3 := by
  obtain ⟨d, hd⟩ := verify_true_slot env st hv
  have hveq := verify_true_elim env st hv
  have hr : runInstrs env.instrOk (orderInstrs o) 0 = (true, orderInstrs o) :=
    runInstrs_all env.instrOk (orderInstrs o) 0 fun i _ => hall (0 + i)
  refine ⟨?_, ?_, toFixed2_two_decimals, rfl⟩
  · have hgoal : printOrder env st o =
        (true, st,
          Call.isEnabledQ :: ((orderInstrs o).map Call.instr ++ [Call.instr Instr.cut])) := by
      simp [printOrder, hd, hveq, hesc, hr]
    rw [hgoal, orderInstrs_eq_spec]
  · intro it hit
    have hmem : Instr.text ("   " ++ toFixed2 (it.quantity * it.price) ++ " EUR\n") styleStd
        ∈ specItemBlock it := by
      simp [specItemBlock]
    have h2 : Instr.text ("   " ++ toFixed2 (it.quantity * it.price) ++ " EUR\n") styleStd
        ∈ specItems o := by
      simp only [specItems]
      exact List.mem_cons.mpr (Or.inr (List.mem_append.mpr (Or.inl (List.mem_flatten.mpr
        ⟨specItemBlock it, List.mem_map_of_mem _ hit, hmem⟩))))
    simp only [specOrderInstrs, List.mem_append]
    tauto

/-- C8 witness: the fully successful print of order1 returns true and
emits the verification query, the spec receipt sequence and the cut. -/
theorem printOrder_success_sequence_witness :
    printOrder envOK stConn order1 =
      (true, stConn,
        Call.isEnabledQ :: ((specOrderInstrs order1).map Call.instr ++ [Call.instr Instr.cut])) :=
  (printOrder_success_sequence envOK stConn order1 (by decide) rfl fun i => rfl).1

/-- C2 counterexample: with dev1 connected but the initialized flag off,
a connectToPrinter call towards dev2 whose initialization re-attempt
throws returns false while leaving dev1 in the ConnectionSlot, so a
failing call can keep a previously connected device in the slot. -/
theorem connectToPrinter_claim_false :
    (connectToPrinter envInitFail stStale dev2).1 = false ∧
    ((connectToPrinter envInitFail stStale dev2).2.1).connectedDevice = some dev1 ∧
    dev1 ≠ dev2 := by
  refine ⟨rfl, rfl, ?_⟩
  decide

/-- C2 amended: a successful connectToPrinter stores the device; a failure
of the initialization pre-phase (or a missing manager) returns false with
the slot left as it was; only when the pre-phase passes and the transport
connect throws is the slot cleared to null; when the connect succeeds the
device is stored and true returned. -/
theorem connectToPrinter_slot_contract (env : Env) (st : ServState) (device : PrinterDevice) :
    ((connectToPrinter env st device).1 = true →
      ((connectToPrinter env st device).2.1).connectedDevice = some device) ∧
    (st.initDone = false → (init env st).1 = false →
      (connectToPrinter env st device).1 = false ∧
      ((connectToPrinter env st device).2.1).connectedDevice = st.connectedDevice) ∧
    (env.managerAvailable = false →
      (connectToPrinter env st device).1 = false ∧
      ((connectToPrinter env st device).2.1).connectedDevice = st.connectedDevice) ∧
    ((st.initDone = true ∨ (init env st).1 = true) → env.managerAvailable = true →
      env.connectThrows = true →
      (connectToPrinter env st device).1 = false ∧
      ((connectToPrinter env st device).2.1).connectedDevice = none) ∧
    ((st.initDone = true ∨ (init env st).1 = true) → env.managerAvailable = true →
      env.connectThrows = false →
      (connectToPrinter env st device).1 = true ∧
      ((connectToPrinter env st device).2.1).connectedDevice = some device) := by
  by_cases hi : st.initDone = true
  · refine ⟨?_, ?_, ?_, ?_, ?_⟩
    · intro h
      by_cases hm : env.managerAvailable = true
      · by_cases hc : env.connectThrows = true
        · simp [connectToPrinter, hi, hm, hc] at h
        · simp only [Bool.not_eq_true] at hc
          simp [connectToPrinter, hi, hm, hc]
      · simp only [Bool.not_eq_true] at hm
        simp [connectToPrinter, hi, hm] at h
    · intro h
      rw [h] at hi
      cases hi
    · intro hm
      simp [connectToPrinter, hi, hm]
    · intro _ hm hc
      simp [connectToPrinter, hi, hm, hc]
    · intro _ hm hc
      simp [connectToPrinter, hi, hm, hc]
  · simp only [Bool.not_eq_true] at hi
    by_cases hinit : (init env st).1 = true
    · refine ⟨?_, ?_, ?_, ?_, ?_⟩
      · intro h
        by_cases hm : env.managerAvailable = true
        · by_cases hc : env.connectThrows = true
          · simp [connectToPrinter, hi, hinit, hm, hc] at h
          · simp only [Bool.not_eq_true] at hc
            simp [connectToPrinter, hi, hinit, hm, hc]
        · simp only [Bool.not_eq_true] at hm
          simp [connectToPrinter, hi, hinit, hm] at h
      · intro _ h
        rw [h] at hinit
        cases hinit
      · intro hm
        simp [connectToPrinter, hi, hinit, hm, init_slot]
      · intro _ hm hc
        simp [connectToPrinter, hi, hinit, hm, hc]
      · intro _ hm hc
        simp [connectToPrinter, hi, hinit, hm, hc]
    · simp only [Bool.not_eq_true] at hinit
      refine ⟨?_, ?_, ?_, ?_, ?_⟩
      · intro h
        simp [connectToPrinter, hi, hinit] at h
      · intro _ _
        simp [connectToPrinter, hi, hinit, init_slot]
      · intro _
        simp [connectToPrinter, hi, hinit, init_slot]
      · intro hor _ _
        rcases hor with h | h
        · rw [h] at hi
          cases hi
        · rw [h] at hinit
          cases hinit
      · intro hor _ _
        rcases hor with h | h
        · rw [h] at hi
          cases hi
        · rw [h] at hinit
          cases hinit

/-- C2 amended witness: on the initialized empty state a successful
transport connect stores dev1, and with a throwing transport connect the
slot ends cleared. -/
theorem connectToPrinter_slot_contract_witness :
    ((connectToPrinter envOK stEmpty dev1).1 = true ∧
      ((connectToPrinter envOK stEmpty dev1).2.1).connectedDevice = some dev1) ∧
    (((connectToPrinter { envOK with connectThrows := true } stConn dev2).1 = false ∧
      ((connectToPrinter { envOK with connectThrows := true } stConn dev2).2.1).connectedDevice
        = none)) :=
  ⟨(connectToPrinter_slot_contract envOK stEmpty dev1).2.2.2.2 (Or.inl rfl) rfl rfl,
   (connectToPrinter_slot_contract { envOK with connectThrows := true } stConn dev2).2.2.2.1
     (Or.inl rfl) rfl rfl⟩

/-- C7 counterexample: a paired device that is present with the empty
string as its name does not keep that name: the JavaScript falsy-or
default replaces the empty string by Unknown Device as well, not only a
missing name. -/
theorem scanForPrinters_claim_false :
    rawEmptyName.name = some "" ∧
    (scanForPrinters envScanEmptyName stEmpty).1
      = [{ address := "AA", name := "Unknown Device" }] ∧
    ("Unknown Device" : String) ≠ "" := by
  refine ⟨rfl, rfl, ?_⟩
  decide

/-- C7 amended: when the pre-phase passes, the manager is reachable and
the paired-device query returns N raw devices, scanForPrinters returns
exactly their image under toPrinterDevice (so N entries in the same
order); each entry keeps its address, keeps a present non-empty name, and
gets Unknown Device for a missing or empty name; a throwing query or a
failing pre-phase yields the empty list (and the embedding is total, so
nothing is thrown). -/
theorem scanForPrinters_contract (env : Env) (st : ServState) :
    (∀ devs, env.enableRes = TRes.ok devs → env.managerAvailable = true →
      (st.initDone = true ∨ (init env st).1 = true) →
      (scanForPrinters env st).1 = devs.map toPrinterDevice ∧
      ((scanForPrinters env st).1).length = devs.length) ∧
    (∀ d : RawDevice, (toPrinterDevice d).address = d.address ∧
      (d.name = none → (toPrinterDevice d).name = "Unknown Device") ∧
      (d.name = some "" → (toPrinterDevice d).name = "Unknown Device") ∧
      (∀ s, d.name = some s → s ≠ "" → (toPrinterDevice d).name = s)) ∧
    (env.enableRes = TRes.thrown → (scanForPrinters env st).1 = []) ∧
    (st.initDone = false → (init env st).1 = false → (scanForPrinters env st).1 = []) ∧
    (env.managerAvailable = false → (scanForPrinters env st).1 = []) := by
  refine ⟨?_, ?_, ?_, ?_, ?_⟩
  · intro devs he hm hpre
    have hres : (scanForPrinters env st).1 = devs.map toPrinterDevice := by
      rcases hpre with h | h
      · simp [scanForPrinters, h, hm, he]
      · by_cases hi : st.initDone = true
        · simp [scanForPrinters, hi, hm, he]
        · simp only [Bool.not_eq_true] at hi
          simp [scanForPrinters, hi, h, hm, he]
    exact ⟨hres, by rw [hres]; exact List.length_map _ _⟩
  · intro d
    refine ⟨rfl, fun h => ?_, fun h => ?_, fun s h hs => ?_⟩
    · simp [toPrinterDevice, jsNameOr, h]
    · simp [toPrinterDevice, jsNameOr, h]
    · simp [toPrinterDevice, jsNameOr, h, hs]
  · intro he
    by_cases hi : st.initDone = true
    · by_cases hm : env.managerAvailable = true
      · simp [scanForPrinters, hi, hm, he]
      · simp only [Bool.not_eq_true] at hm
        simp [scanForPrinters, hi, hm]
    · simp only [Bool.not_eq_true] at hi
      by_cases hinit : (init env st).1 = true
      · by_cases hm : env.managerAvailable = true
        · simp [scanForPrinters, hi, hinit, hm, he]
        · simp only [Bool.not_eq_true] at hm
          simp [scanForPrinters, hi, hinit, hm]
      · simp only [Bool.not_eq_true] at hinit
        simp [scanForPrinters, hi, hinit]
  · intro hi hinit
    simp [scanForPrinters, hi, hinit]
  · intro hm
    by_cases hi : st.initDone = true
    · simp [scanForPrinters, hi, hm]
    · simp only [Bool.not_eq_true] at hi
      by_cases hinit : (init env st).1 = true
      · simp [scanForPrinters, hi, hinit, hm]
      · simp only [Bool.not_eq_true] at hinit
        simp [scanForPrinters, hi, hinit]

/-- C7 amended witness: a two-device list with one missing name maps to
two entries in order, the missing name replaced by Unknown Device. -/
theorem scanForPrinters_contract_witness :
    (scanForPrinters envScanPair stEmpty).1
      = [{ address := "AA:BB", name := "Epson" },
         { address := "CC:DD", name := "Unknown Device" }] := by
  have h := ((scanForPrinters_contract envScanPair stEmpty).1
      rawPair rfl rfl (Or.inl rfl)).1
  rw [h]
  rfl

/-- A non-skipped auto-print evaluation filters the new pending orders
and snapshots the full id set. -/
theorem autoPrintStep_run (prev : List String) (orders : List Order) :
    autoPrintStep true true prev orders
      = (orders.filter (isNewPending prev), orders.map fun o => o.id) := rfl

/-- String-list contains is false exactly on non-members. -/
theorem contains_false_iff (l : List String) (s : String) :
    l.contains s = false ↔ s ∉ l := by
  constructor
  · intro h hm
    have ht : l.contains s = true := List.elem_iff.mpr hm
    rw [h] at ht
    cases ht
  · intro h
    cases hc : l.contains s with
    | false => rfl
    | true => exact absurd (List.elem_iff.mp hc) h

/-- C6: a non-skipped auto-print evaluation passes to the print path
exactly the orders that are new (id absent from the previous snapshot) and
pending — each exactly as often as it occurs in the list, every other
order zero times — and a second evaluation of the unchanged list prints
nothing, whatever the outcome of the first prints was (the snapshot update
does not depend on it). -/
theorem autoPrint_new_pending_once (prev : List String) (orders : List Order) :
    (∀ o : Order, o ∈ (autoPrintStep true true prev orders).1 ↔
        o ∈ orders ∧ prev.contains o.id = false ∧ o.status = OrderStatus.pending) ∧
    (∀ o : Order, prev.contains o.id = false → o.status = OrderStatus.pending →
        ((autoPrintStep true true prev orders).1).count o = orders.count o) ∧
    (∀ o : Order, prev.contains o.id = true ∨ o.status ≠ OrderStatus.pending →
        ((autoPrintStep true true prev orders).1).count o = 0) ∧
    (autoPrintStep true true (autoPrintStep true true prev orders).2 orders).1 = [] := by
  refine ⟨?_, ?_, ?_, ?_⟩
  · intro o
    rw [autoPrintStep_run]
    simp [List.mem_filter, isNewPending]
  · intro o hnew hpend
    have hp : isNewPending prev o = true := by
      unfold isNewPending
      rw [hnew, hpend]
      rfl
    rw [autoPrintStep_run]
    exact List.count_filter hp
  · intro o hother
    have hp : isNewPending prev o = false := by
      unfold isNewPending
      rcases hother with h | h
      · rw [h]
        rfl
      · rw [beq_eq_false_iff_ne.mpr h]
        simp
    rw [autoPrintStep_run]
    rw [List.count_eq_zero]
    intro hmem
    rw [List.mem_filter] at hmem
    rw [hmem.2] at hp
    cases hp
  · rw [autoPrintStep_run, autoPrintStep_run]
    refine List.filter_eq_nil_iff.mpr fun o ho => ?_
    simp only [isNewPending, Bool.and_eq_true, Bool.not_eq_true']
    intro hcontr
    have hm : o.id ∈ orders.map fun x => x.id := List.mem_map_of_mem _ ho
    exact absurd hm ((contains_false_iff _ _).mp hcontr.1)

/-- C6 witness: from an empty snapshot, a list with one pending and one
preparing order prints exactly the pending one, and re-evaluating the
unchanged list prints nothing. -/
theorem autoPrint_new_pending_once_witness :
    (order1 ∈ (autoPrintStep true true [] [order1, order2]).1 ↔
      order1 ∈ [order1, order2] ∧ List.contains [] order1.id = false ∧
        order1.status = OrderStatus.pending) ∧
    ((autoPrintStep true true [] [order1, order2]).1).count order1 = 1 ∧
    ((autoPrintStep true true [] [order1, order2]).1).count order2 = 0 ∧
    (autoPrintStep true true (autoPrintStep true true [] [order1, order2]).2
        [order1, order2]).1 = [] := by
  obtain ⟨h1, h2, h3, h4⟩ := autoPrint_new_pending_once [] [order1, order2]
  refine ⟨h1 order1, ?_, ?_, h4⟩
  · rw [h2 order1 rfl rfl]
    decide
  · exact h3 order2 (Or.inr (by decide))

/-- C9: a skipped auto-print evaluation (connected flag false or
auto-print toggled off) prints nothing and leaves the previous-ids
snapshot untouched, so an order that appeared during the skipped
evaluation is still new at the next non-skipped evaluation and is printed
then if pending. -/
theorem autoPrint_skip_frame (c e : Bool) (prev : List String)
    (orders orders2 : List Order) (o : Order) :
    (c = false ∨ e = false → autoPrintStep c e prev orders = ([], prev)) ∧
    (c = false ∨ e = false → o ∈ orders2 → prev.contains o.id = false →
      o.status = OrderStatus.pending →
      o ∈ (autoPrintStep true true (autoPrintStep c e prev orders).2 orders2).1) := by
  have hskip : c = false ∨ e = false → autoPrintStep c e prev orders = ([], prev) := by
    intro h
    rcases h with h | h <;> simp [autoPrintStep, h]
  refine ⟨hskip, fun h hmem hnew hpend => ?_⟩
  rw [hskip h]
  rw [autoPrintStep_run]
  rw [List.mem_filter]
  refine ⟨hmem, ?_⟩
  unfold isNewPending
  rw [hnew, hpend]
  rfl

/-- C9 witness: with the connected flag off, the evaluation of the list
holding order1 is a no-op on the snapshot, and the next connected
evaluation prints order1. -/
theorem autoPrint_skip_frame_witness :
    autoPrintStep false true [] [order1] = ([], []) ∧
    order1 ∈ (autoPrintStep true true (autoPrintStep false true [] [order1]).2 [order1]).1 :=
  ⟨(autoPrint_skip_frame false true [] [order1] [order1] order1).1 (Or.inl rfl),
   (autoPrint_skip_frame false true [] [order1] [order1] order1).2 (Or.inl rfl)
     (by decide) rfl rfl⟩

end WAOrder
